import Mathlib

/-!
# mav_voxblox_planning: LocoSmoother configuration and the rviz PlanningPanel

A shallow embedding of

* `mav_path_smoothing/include/mav_path_smoothing/loco_smoother.h`
  (the four configuration fields of `LocoSmoother` and their accessors; the
  two-point operation it declares is modelled from the specification), and
* `mav_planning_rviz/src/planning_panel.cpp`
  (the state-changing slots of `PlanningPanel` and its two service calls).

Member functions become pure functions on an explicit state record.  Signals,
log lines and service calls are returned as an explicit event trace, C++
exceptions are the error side of `Except`.
-/

set_option autoImplicit false

namespace mav_msgs

/-- Three coordinates of an `Eigen::Vector3d`; doubles are carried as rationals,
no arithmetic of the embedding depends on rounding. -/
structure Vector3d where
  x : ℚ
  y : ℚ
  z : ℚ
  deriving DecidableEq

/-- The part of `mav_msgs::EigenTrajectoryPoint` the code here passes around:
position plus velocity, acceleration and yaw. -/
structure EigenTrajectoryPoint where
  position_W : Vector3d
  velocity_W : Vector3d
  acceleration_W : Vector3d
  yaw : ℚ
  deriving DecidableEq

/-- A trajectory point at rest at the given position. -/
def pointAt (x y z : ℚ) : EigenTrajectoryPoint :=
  { position_W := { x := x, y := y, z := z }
    velocity_W := { x := 0, y := 0, z := 0 }
    acceleration_W := { x := 0, y := 0, z := 0 }
    yaw := 0 }

end mav_msgs

namespace mav_planning

open mav_msgs

/-! ## loco_smoother.h -/

/-- State of a `LocoSmoother`: the inherited `PolynomialSmoother` part (its
header is not part of the sources, so its type is a parameter) followed by the
four protected fields of loco_smoother.h lines 52-55.  `int` is carried as
`Int`; the accessors do no arithmetic. -/
structure LocoSmoother (Base : Type) where
  toPolynomialSmoother : Base
  resample_trajectory_ : Bool
  resample_visibility_ : Bool
  num_segments_ : Int
  add_waypoints_ : Bool

section Accessors

variable {Base : Type}

/-- Line 33: `bool getResampleTrajectory() const`. -/
def getResampleTrajectory (s : LocoSmoother Base) : Bool :=
  s.resample_trajectory_

/-- Lines 34-36: `void setResampleTrajectory(bool)`. -/
def setResampleTrajectory (s : LocoSmoother Base) (resample_trajectory : Bool) :
    LocoSmoother Base :=
  { s with resample_trajectory_ := resample_trajectory }

/-- Line 37: `bool getResampleVisibility() const`. -/
def getResampleVisibility (s : LocoSmoother Base) : Bool :=
  s.resample_visibility_

/-- Lines 38-40: `void setResampleVisibility(bool)`. -/
def setResampleVisibility (s : LocoSmoother Base) (resample_visibility : Bool) :
    LocoSmoother Base :=
  { s with resample_visibility_ := resample_visibility }

/-- Line 41: `int getNumSegments() const`. -/
def getNumSegments (s : LocoSmoother Base) : Int :=
  s.num_segments_

/-- Line 42: `void setNumSegments(int)`; the value is stored as given. -/
def setNumSegments (s : LocoSmoother Base) (num_segments : Int) : LocoSmoother Base :=
  { s with num_segments_ := num_segments }

/-- Line 44: `bool getAddWaypoints() const`. -/
def getAddWaypoints (s : LocoSmoother Base) : Bool :=
  s.add_waypoints_

/-- Line 45: `void setAddWaypoints(bool)`. -/
def setAddWaypoints (s : LocoSmoother Base) (add_waypoints : Bool) : LocoSmoother Base :=
  { s with add_waypoints_ := add_waypoints }

end Accessors

/-! ### The two-point operation

`getTrajectoryBetweenTwoPoints` is only declared in loco_smoother.h (lines
21-25); its body is not part of the sources. -/

/-- The error taxonomy of section 7 of the specification. -/
inductive SmoothingError where
  | DegenerateInputError
  | NoPathFound
  | OptimizationFailureSingular
  | OptimizationFailureNotConverged
  | ConfigurationError
  deriving DecidableEq, Repr

/-- Section 3 of the specification: a waypoint is a position plus optional
velocity, acceleration and yaw state. -/
structure Waypoint where
  position : Vector3d
  velocity : Option Vector3d
  acceleration : Option Vector3d
  yaw : Option ℚ
  deriving DecidableEq

/-- A start or goal point as a waypoint with its full state. -/
def Waypoint.ofTrajectoryPoint (point : EigenTrajectoryPoint) : Waypoint :=
  { position := point.position_W
    velocity := some point.velocity_W
    acceleration := some point.acceleration_W
    yaw := some point.yaw }

/-- A waypoint that fixes a position only. -/
def Waypoint.atPosition (position : Vector3d) : Waypoint :=
  { position := position, velocity := none, acceleration := none, yaw := none }

/-- Section 3: one polynomial piece of a trajectory, valid over `[0, duration)`,
with one coefficient list per axis. -/
structure PolynomialSegment where
  duration : ℚ
  coefficients : List (List ℚ)
  deriving DecidableEq

/-- Section 3: an ordered sequence of segments. -/
structure Trajectory where
  segments : List PolynomialSegment
  deriving DecidableEq

/-- Modelled from the spec: the Segment-Time Estimator (section 4.2) and the
LOCO Cost Optimizer (section 4.3) are missing from the sources, and the
specification gives their contracts but no algorithm, so both are parameters.
`nominalTime config a b` is the seed duration of the straight edge from `a` to
`b`; `solve config waypoints initial_durations hard_constraints` is the
contract `solve(...) -> Trajectory | OptimizationFailure`, the cost weights and
the time-optimization switch being read from the inherited configuration. -/
structure SmoothingEngine (Base : Type) where
  nominalTime : Base → Vector3d → Vector3d → ℚ
  solve : Base → List Waypoint → List ℚ → Bool → Except SmoothingError Trajectory

/-- What sections 4.2 and 4.3 promise of the two collaborators: a strictly
positive duration for an edge between distinct positions; on success one
polynomial segment per seed duration ("waypoints.size()-1 segments"); and no
failure other than the two kinds of `OptimizationFailure`. -/
structure SmoothingEngine.Lawful {Base : Type} (engine : SmoothingEngine Base) : Prop where
  nominalTime_pos : ∀ (config : Base) (a b : Vector3d), a ≠ b →
    0 < engine.nominalTime config a b
  solve_segments : ∀ (config : Base) (waypoints : List Waypoint) (durations : List ℚ)
    (hard : Bool) (trajectory : Trajectory),
    waypoints.length = durations.length + 1 →
    engine.solve config waypoints durations hard = .ok trajectory →
    trajectory.segments.length = durations.length
  solve_failure : ∀ (config : Base) (waypoints : List Waypoint) (durations : List ℚ)
    (hard : Bool) (e : SmoothingError),
    engine.solve config waypoints durations hard = .error e →
    e = .OptimizationFailureSingular ∨ e = .OptimizationFailureNotConverged

/-- Point at fraction `t` of the straight edge from `a` to `b`. -/
def interpolate (a b : Vector3d) (t : ℚ) : Vector3d :=
  { x := a.x + t * (b.x - a.x)
    y := a.y + t * (b.y - a.y)
    z := a.z + t * (b.z - a.z) }

/-- Modelled from the spec: section 4.5, "split the start→goal path into a
configured number of ... segments ... the resulting multi-waypoint problem".
The `n + 1` waypoints of the split: the start with its state, the `n - 1`
equally spaced positions between, the goal with its state. -/
def twoPointWaypoints (n : Nat) (start goal : EigenTrajectoryPoint) : List Waypoint :=
  Waypoint.ofTrajectoryPoint start ::
    ((List.range (n - 1)).map fun (i : Nat) =>
        Waypoint.atPosition
          (interpolate start.position_W goal.position_W (((i : ℚ) + 1) / (n : ℚ)))) ++
      [Waypoint.ofTrajectoryPoint goal]

/-- Modelled from the spec: section 4.5, "equal-duration segments".  The `n`
nominal durations of the split, `total_time / n` each. -/
def nominalDurations (total_time : ℚ) (n : Nat) : List ℚ :=
  List.replicate n (total_time / (n : ℚ))

/-- Modelled from the spec: the body of `LocoSmoother::getTrajectoryBetweenTwoPoints`
is missing from the sources (only its declaration, loco_smoother.h lines 21-25,
is present).  Section 4.5: "Failure: `num_segments < 1` → `ConfigurationError`";
sections 3 and 7: coincident positions are a `DegenerateInputError`; the
configuration is checked before the waypoints.  Otherwise the edge is split
into `num_segments` pieces of equal nominal duration, the nominal duration of
the whole edge coming from the estimator of section 4.2, and sections 4.3 and
4.4 are re-used on the resulting problem: waypoints are hard constraints
exactly when `add_waypoints` (waypoints as soft cost) is off, a failure of the
optimizer is returned to the caller (section 7), and in trajectory mode the
materializer passes the optimizer's trajectory through unchanged. -/
def getTrajectoryBetweenTwoPoints {Base : Type} (engine : SmoothingEngine Base)
    (s : LocoSmoother Base) (start goal : EigenTrajectoryPoint) :
    Except SmoothingError Trajectory :=
  if s.num_segments_ < 1 then
    .error .ConfigurationError
  else if start.position_W = goal.position_W then
    .error .DegenerateInputError
  else
    let total_time :=
      engine.nominalTime s.toPolynomialSmoother start.position_W goal.position_W
    let hard_constraints := !s.add_waypoints_
    match engine.solve s.toPolynomialSmoother
        (twoPointWaypoints s.num_segments_.toNat start goal)
        (nominalDurations total_time s.num_segments_.toNat) hard_constraints with
    | .error failure => .error failure
    | .ok trajectory => .ok trajectory

end mav_planning

namespace mav_planning_rviz

open mav_msgs

/-! ## planning_panel.cpp -/

/-- A `PoseWidget*`: an address in the store of pose widgets. -/
abbrev WidgetPtr := Nat

/-- The member functions of `PoseWidget` that planning_panel.cpp calls.  The
class is declared in pose_widget.h, which is not part of the sources, so the
widget type `W` and the two functions are parameters. -/
structure PoseWidgetApi (W : Type) where
  getPose : W → EigenTrajectoryPoint
  setPose : EigenTrajectoryPoint → W → W

/-- The functions of rviz that `save` and `load` call: `rviz::Panel::save`,
`rviz::Panel::load`, `rviz::Config::mapSetValue` (with a `QString` value) and
`rviz::Config::mapGetString` (`some v` when it returns true and writes `v`,
`none` when it returns false and leaves the output untouched).  rviz is an
external library; its types and functions are parameters. -/
structure RvizApi (Base Config : Type) where
  Panel_save : Base → Config → Config
  Panel_load : Base → Config → Base
  mapSetValue : Config → String → String → Config
  mapGetString : Config → String → Option String

/-- What reading back a map entry of an `rviz::Config` is assumed to satisfy:
a key just written reads back its value, and writing one key does not disturb
the reading of another. -/
structure RvizApi.Lawful {Base Config : Type} (api : RvizApi Base Config) : Prop where
  get_set_same : ∀ (c : Config) (k v : String),
    api.mapGetString (api.mapSetValue c k v) k = some v
  get_set_other : ∀ (c : Config) (k k' v : String), k ≠ k' →
    api.mapGetString (api.mapSetValue c k' v) k = api.mapGetString c k

/-- State of a `PlanningPanel`.  `base` is the inherited `rviz::Panel`; the two
`QLineEdit`s are carried as their text; `widgets` is the store the
`PoseWidget*` values point into; `std::map::find` is a lookup returning
`Option`.  `QString` and `std::string` are both `String`. -/
structure PlanningPanel (Base W : Type) where
  base : Base
  namespace_ : String
  planner_name_ : String
  namespace_editor_ : String
  planner_name_editor_ : String
  widgets : WidgetPtr → W
  pose_widget_map_ : String → Option WidgetPtr
  edit_button_map_ : String → Option Nat
  start_pose_widget_ : WidgetPtr
  goal_pose_widget_ : WidgetPtr
  currently_editing_ : String

/-- Qt signals emitted by the panel. -/
inductive Signal where
  | configChanged
  deriving DecidableEq, Repr

section Panel

variable {Base W Config PoseStamped : Type}

/-- Lines 113-119. -/
def setNamespace (p : PlanningPanel Base W) (new_namespace : String) :
    PlanningPanel Base W × List Signal :=
  -- Only take action if the name has changed.
  if new_namespace ≠ p.namespace_ then
    ({ p with namespace_ := new_namespace }, [Signal.configChanged])
  else
    (p, [])

/-- Lines 108-110. -/
def updateNamespace (p : PlanningPanel Base W) : PlanningPanel Base W × List Signal :=
  setNamespace p p.namespace_editor_

/-- Lines 126-132. -/
def setPlannerName (p : PlanningPanel Base W) (new_planner_name : String) :
    PlanningPanel Base W × List Signal :=
  -- Only take action if the name has changed.
  if new_planner_name ≠ p.planner_name_ then
    ({ p with planner_name_ := new_planner_name }, [Signal.configChanged])
  else
    (p, [])

/-- Lines 121-123. -/
def updatePlannerName (p : PlanningPanel Base W) : PlanningPanel Base W × List Signal :=
  setPlannerName p p.planner_name_editor_

/-- Lines 190-194.  `rviz::Config` is a handle, so the writes are visible to
the caller: the written `Config` is the result. -/
def save (api : RvizApi Base Config) (p : PlanningPanel Base W) (config : Config) : Config :=
  let config := api.Panel_save p.base config
  let config := api.mapSetValue config "namespace" p.namespace_
  api.mapSetValue config "planner_name" p.planner_name_

/-- Lines 197-206. -/
def load (api : RvizApi Base Config) (p : PlanningPanel Base W) (config : Config) :
    PlanningPanel Base W :=
  let p := { p with base := api.Panel_load p.base config }
  let p :=
    match api.mapGetString config "namespace" with
    | some v => { p with namespace_ := v, namespace_editor_ := v }
    | none => p
  match api.mapGetString config "planner_name" with
  | some v => { p with planner_name_ := v, planner_name_editor_ := v }
  | none => p

/-- Lines 208-218. -/
def updateInteractiveMarkerPose (w : PoseWidgetApi W) (p : PlanningPanel Base W)
    (pose : EigenTrajectoryPoint) : PlanningPanel Base W :=
  if p.currently_editing_ = "" then
    p
  else
    match p.pose_widget_map_ p.currently_editing_ with
    | none => p
    | some search =>
      { p with widgets := Function.update p.widgets search (w.setPose pose (p.widgets search)) }

/-! ### Service calls -/

/-- What a C++ call can throw: an object derived from `std::exception`
(carrying its `what()`), or anything else. -/
inductive CppException where
  | std_exception (what : String)
  | other
  deriving DecidableEq, Repr

/-- The request of a ROS service call: a `mav_planning_msgs::PlannerService`
request with its two stamped poses, or a `std_srvs::Empty` request. -/
inductive ServiceRequest (PoseStamped : Type) where
  | planner (start_pose goal_pose : PoseStamped)
  | empty

/-- Severity of a rosconsole line. -/
inductive LogLevel where
  | info
  | warn
  | error
  deriving DecidableEq, Repr

/-- Observable actions of the service-calling code, in program order. -/
inductive Action (PoseStamped : Type) where
  | service_call (service_name : String) (req : ServiceRequest PoseStamped)
  | log (level : LogLevel) (text : String)

/-- The behaviour of `ros::service::call(service_name, req)`: it returns a
`bool` or throws.  ROS is external; the function is a parameter. -/
abbrev ServiceCall (PoseStamped : Type) :=
  String → ServiceRequest PoseStamped → Except CppException Bool

/-- The `(service_name, request)` pairs of the service calls in a trace. -/
def issuedCalls : List (Action PoseStamped) → List (String × ServiceRequest PoseStamped)
  | [] => []
  | Action.service_call n r :: rest => (n, r) :: issuedCalls rest
  | Action.log _ _ :: rest => issuedCalls rest

/-- The `try`/`catch` block shared by lines 243-250 and 259-265, given the
outcome of `ros::service::call`: a `false` result is logged as a warning, a
`std::exception` is caught and logged as an error, anything else thrown
leaves the block. -/
def afterServiceCall (service_name : String) :
    Except CppException Bool → Except CppException Unit × List (Action PoseStamped)
  | .ok true => (.ok (), [])
  | .ok false => (.ok (), [Action.log .warn ("Couldn't call service: " ++ service_name)])
  | .error (.std_exception what) =>
      (.ok (), [Action.log .error ("Service Exception: " ++ what)])
  | .error .other => (.error .other, [])

/-- The values captured by the lambda of line 236:
`[service_name, start_point, goal_point]`, all by value. -/
structure PlannerThread where
  service_name : String
  start_point : EigenTrajectoryPoint
  goal_point : EigenTrajectoryPoint
  deriving DecidableEq

/-- Lines 236-251, the body the detached thread runs.  `toMsg` is
`mav_msgs::msgPoseStampedFromEigenTrajectoryPoint`, an external conversion. -/
def plannerThreadBody (toMsg : EigenTrajectoryPoint → PoseStamped)
    (call : ServiceCall PoseStamped) (t : PlannerThread) :
    Except CppException Unit × List (Action PoseStamped) :=
  let req := ServiceRequest.planner (toMsg t.start_point) (toMsg t.goal_point)
  -- try
  let info := Action.log .info ("Service name: " ++ t.service_name)
  let r := afterServiceCall t.service_name (call t.service_name req)
  (r.1, info :: Action.service_call t.service_name req :: r.2)

/-- Lines 228-253: the panel after the call, and the thread it has started and
detached. -/
def callPlannerService (w : PoseWidgetApi W) (p : PlanningPanel Base W) :
    PlanningPanel Base W × PlannerThread :=
  let service_name := p.namespace_ ++ "/" ++ p.planner_name_ ++ "/plan"
  let start_point := w.getPose (p.widgets p.start_pose_widget_)
  let goal_point := w.getPose (p.widgets p.goal_pose_widget_)
  (p, { service_name := service_name, start_point := start_point, goal_point := goal_point })

/-- Lines 255-266: the result (normal return with the panel after the call, or
an exception leaving the function) and the actions performed. -/
def callPublishPath (call : ServiceCall PoseStamped) (p : PlanningPanel Base W) :
    Except CppException (PlanningPanel Base W) × List (Action PoseStamped) :=
  let req : ServiceRequest PoseStamped := ServiceRequest.empty
  let service_name := p.namespace_ ++ "/" ++ p.planner_name_ ++ "/publish_path"
  -- try
  let r := afterServiceCall service_name (call service_name req)
  (r.1.map (fun _ => p), Action.service_call service_name req :: r.2)

/-- The three outcomes of `ros::service::call` that the panel handles: it
returns true, it returns false, or it throws a `std::exception`. -/
def StdOutcome (o : Except CppException Bool) : Prop :=
  o = .ok true ∨ o = .ok false ∨ ∃ what, o = .error (.std_exception what)

end Panel

/-! ### Concrete instances

Small concrete values on which the functions above can be evaluated. -/

/-- A pose widget that is just the pose it shows. -/
def plainWidgetApi : PoseWidgetApi EigenTrajectoryPoint :=
  { getPose := fun widget => widget
    setPose := fun pose _ => pose }

/-- An `rviz::Config` as a finite map from keys to strings, with a base panel
that saves and loads nothing. -/
def mapRvizApi : RvizApi Unit (String → Option String) :=
  { Panel_save := fun _ config => config
    Panel_load := fun base _ => base
    mapSetValue := fun config key value => Function.update config key (some value)
    mapGetString := fun config key => config key }

/-- The panel as `createLayout` leaves it (widgets "start" and "goal"
registered at addresses 0 and 1), with names filled in and "goal" being
edited. -/
def demoPanel : PlanningPanel Unit EigenTrajectoryPoint :=
  { base := ()
    namespace_ := "firefly"
    planner_name_ := "voxblox_rrt_planner"
    namespace_editor_ := "firefly"
    planner_name_editor_ := "voxblox_rrt_planner"
    widgets := fun ptr => if ptr = 0 then pointAt 0 0 0 else pointAt 10 0 0
    pose_widget_map_ := fun id =>
      if id = "start" then some 0 else if id = "goal" then some 1 else none
    edit_button_map_ := fun id =>
      if id = "start" then some 0 else if id = "goal" then some 1 else none
    start_pose_widget_ := 0
    goal_pose_widget_ := 1
    currently_editing_ := "goal" }

/-- A freshly constructed panel: empty names, nothing being edited. -/
def freshPanel : PlanningPanel Unit EigenTrajectoryPoint :=
  { demoPanel with
    namespace_ := ""
    planner_name_ := ""
    namespace_editor_ := ""
    planner_name_editor_ := ""
    currently_editing_ := "" }

/-- A service that is not reachable: every call throws a `std::exception`. -/
def unreachableService : ServiceCall EigenTrajectoryPoint :=
  fun _ _ => .error (.std_exception "service unavailable")

end mav_planning_rviz

namespace mav_planning

open mav_msgs

/-- A smoother with three segments configured and waypoints as soft cost. -/
def demoSmoother : LocoSmoother Unit :=
  { toPolynomialSmoother := ()
    resample_trajectory_ := true
    resample_visibility_ := false
    num_segments_ := 3
    add_waypoints_ := true }

/-- Cross product of `b - a` and `c - a`: zero exactly when the three points
lie on one line. -/
def crossFrom (a b c : Vector3d) : Vector3d :=
  { x := (b.y - a.y) * (c.z - a.z) - (b.z - a.z) * (c.y - a.y)
    y := (b.z - a.z) * (c.x - a.x) - (b.x - a.x) * (c.z - a.z)
    z := (b.x - a.x) * (c.y - a.y) - (b.y - a.y) * (c.x - a.x) }

/-- Three or more positions, all on the line through the first two. -/
def onOneLine : List Vector3d → Bool
  | a :: b :: c :: rest =>
      (c :: rest).all fun q => decide (crossFrom a b q = { x := 0, y := 0, z := 0 })
  | _ => false

/-- The straight piece from `a` to `b` over `duration`, as degree-one
polynomials per axis. -/
def straightSegment (duration : ℚ) (a b : Vector3d) : PolynomialSegment :=
  { duration := duration
    coefficients :=
      [[a.x, (b.x - a.x) / duration], [a.y, (b.y - a.y) / duration],
       [a.z, (b.z - a.z) / duration]] }

/-- A small engine on which the two-point operation can be evaluated.  The
seed duration is the coordinate-wise distance at unit speed with a floor of 1.
The solve is singular on collinear waypoints under hard constraints (the
failure condition section 4.3 names) and otherwise joins consecutive
waypoints by straight pieces, one per seed duration. -/
def demoEngine : SmoothingEngine Unit :=
  { nominalTime := fun _ a b => max (|b.x - a.x| + |b.y - a.y| + |b.z - a.z|) 1
    solve := fun _ waypoints durations hard =>
      if hard && onOneLine (waypoints.map Waypoint.position) then
        .error .OptimizationFailureSingular
      else
        .ok { segments :=
                List.zipWith (fun duration (edge : Waypoint × Waypoint) =>
                    straightSegment duration edge.1.position edge.2.position)
                  durations (waypoints.zip waypoints.tail) } }

end mav_planning

/-! ## Theorems: LocoSmoother -/

namespace mav_planning

open mav_msgs

/-- C2: each of the four setters replaces exactly its own field by the given
value: the matching getter then returns that value, the other three getters
and the inherited part return what they returned before the call. -/
theorem setters_replace_only_their_field {Base : Type} (s : LocoSmoother Base) :
    (∀ v : Bool,
      getResampleTrajectory (setResampleTrajectory s v) = v ∧
      getResampleVisibility (setResampleTrajectory s v) = getResampleVisibility s ∧
      getNumSegments (setResampleTrajectory s v) = getNumSegments s ∧
      getAddWaypoints (setResampleTrajectory s v) = getAddWaypoints s ∧
      (setResampleTrajectory s v).toPolynomialSmoother = s.toPolynomialSmoother) ∧
    (∀ v : Bool,
      getResampleVisibility (setResampleVisibility s v) = v ∧
      getResampleTrajectory (setResampleVisibility s v) = getResampleTrajectory s ∧
      getNumSegments (setResampleVisibility s v) = getNumSegments s ∧
      getAddWaypoints (setResampleVisibility s v) = getAddWaypoints s ∧
      (setResampleVisibility s v).toPolynomialSmoother = s.toPolynomialSmoother) ∧
    (∀ v : Int,
      getNumSegments (setNumSegments s v) = v ∧
      getResampleTrajectory (setNumSegments s v) = getResampleTrajectory s ∧
      getResampleVisibility (setNumSegments s v) = getResampleVisibility s ∧
      getAddWaypoints (setNumSegments s v) = getAddWaypoints s ∧
      (setNumSegments s v).toPolynomialSmoother = s.toPolynomialSmoother) ∧
    (∀ v : Bool,
      getAddWaypoints (setAddWaypoints s v) = v ∧
      getResampleTrajectory (setAddWaypoints s v) = getResampleTrajectory s ∧
      getResampleVisibility (setAddWaypoints s v) = getResampleVisibility s ∧
      getNumSegments (setAddWaypoints s v) = getNumSegments s ∧
      (setAddWaypoints s v).toPolynomialSmoother = s.toPolynomialSmoother) :=
  ⟨fun _ => ⟨rfl, rfl, rfl, rfl, rfl⟩, fun _ => ⟨rfl, rfl, rfl, rfl, rfl⟩,
   fun _ => ⟨rfl, rfl, rfl, rfl, rfl⟩, fun _ => ⟨rfl, rfl, rfl, rfl, rfl⟩⟩

/-- C1: for every integer `n < 1`, after `setNumSegments(n)` (which stores `n`
as given) the two-point operation fails, whatever the two points and the
engine are, and the failure is `ConfigurationError`. -/
theorem num_segments_below_one_is_configuration_error {Base : Type}
    (engine : SmoothingEngine Base) (s : LocoSmoother Base) (n : Int) (hn : n < 1)
    (start goal : EigenTrajectoryPoint) :
    getNumSegments (setNumSegments s n) = n ∧
    getTrajectoryBetweenTwoPoints engine (setNumSegments s n) start goal =
      .error SmoothingError.ConfigurationError := by
  refine ⟨rfl, ?_⟩
  simp [getTrajectoryBetweenTwoPoints, setNumSegments, hn]

/-- On the scenario of the specification (start (0,0,0), goal (10,0,0), five
segments) with waypoints as soft cost, the demo engine returns five segments
of nominal duration 2 each. -/
theorem demoEngine_soft_scenario_succeeds :
    ∃ trajectory : Trajectory,
      getTrajectoryBetweenTwoPoints demoEngine (setNumSegments demoSmoother 5)
        (pointAt 0 0 0) (pointAt 10 0 0) = .ok trajectory ∧
      trajectory.segments.map PolynomialSegment.duration = [2, 2, 2, 2, 2] := by
  simp [getTrajectoryBetweenTwoPoints, setNumSegments, demoSmoother, demoEngine,
    twoPointWaypoints, onOneLine, crossFrom, interpolate, Waypoint.ofTrajectoryPoint,
    Waypoint.atPosition, pointAt, List.range_succ, nominalDurations, straightSegment,
    List.replicate]
  norm_num

/-- Witness for C1 at `n = 0`, the largest rejected value. -/
theorem num_segments_zero_is_configuration_error :
    (0 : Int) < 1 ∧
    getNumSegments (setNumSegments demoSmoother 0) = 0 ∧
    getTrajectoryBetweenTwoPoints demoEngine (setNumSegments demoSmoother 0)
      (pointAt 0 0 0) (pointAt 10 0 0) = .error SmoothingError.ConfigurationError :=
  ⟨by decide,
   num_segments_below_one_is_configuration_error demoEngine demoSmoother 0 (by decide)
     (pointAt 0 0 0) (pointAt 10 0 0)⟩

end mav_planning

/-! ## Theorems: PlanningPanel -/

namespace mav_planning_rviz

open mav_msgs

section PanelTheorems

variable {Base W Config PoseStamped : Type}

/-- The shared `try`/`catch` block returns normally on each of the three handled
outcomes. -/
theorem afterServiceCall_of_stdOutcome (service_name : String)
    (o : Except CppException Bool) (h : StdOutcome o) :
    (afterServiceCall service_name o : _ × List (Action PoseStamped)).1 = .ok () := by
  rcases h with h | h | ⟨what, h⟩ <;> subst h <;> rfl

/-- C5: whenever the underlying service call returns true, returns false or
throws a `std::exception`, `callPublishPath` returns normally with the panel
unchanged, `callPlannerService` leaves the panel unchanged, and the body of
the thread it starts returns normally. -/
theorem service_call_failures_are_swallowed (w : PoseWidgetApi W)
    (toMsg : EigenTrajectoryPoint → PoseStamped) (call : ServiceCall PoseStamped)
    (p : PlanningPanel Base W) :
    (StdOutcome (call (p.namespace_ ++ "/" ++ p.planner_name_ ++ "/publish_path")
        ServiceRequest.empty) →
      (callPublishPath call p).1 = .ok p) ∧
    (callPlannerService w p).1 = p ∧
    (∀ t : PlannerThread,
      StdOutcome (call t.service_name
        (ServiceRequest.planner (toMsg t.start_point) (toMsg t.goal_point))) →
      (plannerThreadBody toMsg call t).1 = .ok ()) := by
  refine ⟨?_, rfl, ?_⟩
  · intro h
    simp only [callPublishPath]
    rw [afterServiceCall_of_stdOutcome _ _ h]
    rfl
  · intro t h
    simp only [plannerThreadBody]
    exact afterServiceCall_of_stdOutcome _ _ h

/-- C6: the thread started by `callPlannerService` issues exactly one service
call, to `ns + "/" + p + "/plan"`, whose request carries the pose of the start
widget as `start_pose` and the pose of the goal widget as `goal_pose`, both as
read when `callPlannerService` ran; `callPublishPath` issues exactly one call,
to `ns + "/" + p + "/publish_path"`. -/
theorem service_calls_are_addressed (w : PoseWidgetApi W)
    (toMsg : EigenTrajectoryPoint → PoseStamped) (call : ServiceCall PoseStamped)
    (p : PlanningPanel Base W) :
    issuedCalls (plannerThreadBody toMsg call (callPlannerService w p).2).2 =
      [(p.namespace_ ++ "/" ++ p.planner_name_ ++ "/plan",
        ServiceRequest.planner (toMsg (w.getPose (p.widgets p.start_pose_widget_)))
          (toMsg (w.getPose (p.widgets p.goal_pose_widget_))))] ∧
    issuedCalls (callPublishPath call p).2 =
      [(p.namespace_ ++ "/" ++ p.planner_name_ ++ "/publish_path", ServiceRequest.empty)] := by
  constructor
  · simp only [plannerThreadBody, callPlannerService, issuedCalls]
    rcases call _ _ with e | b
    · cases e <;> rfl
    · cases b <;> rfl
  · simp only [callPublishPath, issuedCalls]
    rcases call _ _ with e | b
    · cases e <;> rfl
    · cases b <;> rfl

/-- C7: `setNamespace` and `setPlannerName` store the given name, emit
`configChanged` exactly once when it differs from the stored one and not at
all when it is equal, and touch no other field; an immediate second call with
the same name emits nothing and changes nothing. -/
theorem set_name_acts_only_on_change (p : PlanningPanel Base W) (s : String) :
    ((setNamespace p s).1 = { p with namespace_ := s } ∧
      (setNamespace p s).2 = (if s = p.namespace_ then [] else [Signal.configChanged]) ∧
      setNamespace (setNamespace p s).1 s = ((setNamespace p s).1, [])) ∧
    ((setPlannerName p s).1 = { p with planner_name_ := s } ∧
      (setPlannerName p s).2 = (if s = p.planner_name_ then [] else [Signal.configChanged]) ∧
      setPlannerName (setPlannerName p s).1 s = ((setPlannerName p s).1, [])) := by
  refine ⟨⟨?_, ?_, ?_⟩, ?_, ?_, ?_⟩
  · by_cases h : s = p.namespace_
    · subst h; simp [setNamespace]
    · simp [setNamespace, h]
  · by_cases h : s = p.namespace_ <;> simp [setNamespace, h]
  · by_cases h : s = p.namespace_
    · subst h; simp [setNamespace]
    · simp [setNamespace, h]
  · by_cases h : s = p.planner_name_
    · subst h; simp [setPlannerName]
    · simp [setPlannerName, h]
  · by_cases h : s = p.planner_name_ <;> simp [setPlannerName, h]
  · by_cases h : s = p.planner_name_
    · subst h; simp [setPlannerName]
    · simp [setPlannerName, h]

/-- C8: loading the `Config` written by `save` restores the saved namespace
and planner name and sets both editor texts to them; loading a `Config` from
which a key cannot be read leaves the corresponding editor text unchanged. -/
theorem save_then_load_round_trip (api : RvizApi Base Config) (hapi : api.Lawful)
    (p q : PlanningPanel Base W) (config : Config) :
    ((load api q (save api p config)).namespace_ = p.namespace_ ∧
      (load api q (save api p config)).planner_name_ = p.planner_name_ ∧
      (load api q (save api p config)).namespace_editor_ = p.namespace_ ∧
      (load api q (save api p config)).planner_name_editor_ = p.planner_name_) ∧
    (api.mapGetString config "namespace" = none →
      (load api q config).namespace_editor_ = q.namespace_editor_) ∧
    (api.mapGetString config "planner_name" = none →
      (load api q config).planner_name_editor_ = q.planner_name_editor_) := by
  have hkeys : ("namespace" : String) ≠ "planner_name" := by decide
  have hns : api.mapGetString (save api p config) "namespace" = some p.namespace_ := by
    simp only [save]
    rw [hapi.get_set_other _ _ _ _ hkeys, hapi.get_set_same]
  have hpn : api.mapGetString (save api p config) "planner_name" = some p.planner_name_ := by
    simp only [save]
    rw [hapi.get_set_same]
  refine ⟨?_, ?_, ?_⟩
  · simp [load, hns, hpn]
  · intro h
    simp only [load, h]
    cases api.mapGetString config "planner_name" <;> rfl
  · intro h
    simp only [load, h]
    cases api.mapGetString config "namespace" <;> rfl

/-- C9: `updateInteractiveMarkerPose` leaves the panel as it is when
`currently_editing_` is empty or names an unregistered id; otherwise it calls
`setPose(pose)` on exactly the widget registered under `currently_editing_`
and leaves every other widget as it is.  In every case `currently_editing_`,
both maps and the start and goal pointers keep their values. -/
theorem marker_pose_reaches_only_edited_widget (w : PoseWidgetApi W)
    (p : PlanningPanel Base W) (pose : EigenTrajectoryPoint) :
    ((p.currently_editing_ = "" ∨ p.pose_widget_map_ p.currently_editing_ = none) →
      updateInteractiveMarkerPose w p pose = p) ∧
    (∀ search : WidgetPtr, p.currently_editing_ ≠ "" →
      p.pose_widget_map_ p.currently_editing_ = some search →
      (updateInteractiveMarkerPose w p pose).widgets search = w.setPose pose (p.widgets search) ∧
      ∀ other : WidgetPtr, other ≠ search →
        (updateInteractiveMarkerPose w p pose).widgets other = p.widgets other) ∧
    (updateInteractiveMarkerPose w p pose).currently_editing_ = p.currently_editing_ ∧
    (updateInteractiveMarkerPose w p pose).pose_widget_map_ = p.pose_widget_map_ ∧
    (updateInteractiveMarkerPose w p pose).edit_button_map_ = p.edit_button_map_ ∧
    (updateInteractiveMarkerPose w p pose).start_pose_widget_ = p.start_pose_widget_ ∧
    (updateInteractiveMarkerPose w p pose).goal_pose_widget_ = p.goal_pose_widget_ := by
  refine ⟨?_, ?_, ?_⟩
  · rintro (h | h)
    · simp [updateInteractiveMarkerPose, h]
    · simp only [updateInteractiveMarkerPose, h]
      split <;> rfl
  · intro search hne hfind
    simp only [updateInteractiveMarkerPose, if_neg hne, hfind]
    refine ⟨by simp, ?_⟩
    intro other hother
    simp [Function.update, hother]
  · simp only [updateInteractiveMarkerPose]
    split
    · exact ⟨rfl, rfl, rfl, rfl, rfl⟩
    · split <;> exact ⟨rfl, rfl, rfl, rfl, rfl⟩

end PanelTheorems

/-- The finite-map `Config` reads back what was written to it. -/
theorem mapRvizApi_lawful : mapRvizApi.Lawful :=
  { get_set_same := fun c k v => by simp [mapRvizApi]
    get_set_other := fun c k k' v h => by simp [mapRvizApi, Function.update, h] }

/-- Witness for C5 on a service whose every call throws a `std::exception`. -/
theorem unreachable_service_is_swallowed :
    StdOutcome (unreachableService
      (demoPanel.namespace_ ++ "/" ++ demoPanel.planner_name_ ++ "/publish_path")
      ServiceRequest.empty) ∧
    (callPublishPath unreachableService demoPanel).1 = .ok demoPanel ∧
    (callPlannerService plainWidgetApi demoPanel).1 = demoPanel ∧
    (plannerThreadBody (fun pose => pose) unreachableService
      (callPlannerService plainWidgetApi demoPanel).2).1 = .ok () :=
  have h := service_call_failures_are_swallowed plainWidgetApi (fun pose => pose)
    unreachableService demoPanel
  ⟨Or.inr (Or.inr ⟨_, rfl⟩), h.1 (Or.inr (Or.inr ⟨_, rfl⟩)), h.2.1,
   h.2.2 _ (Or.inr (Or.inr ⟨_, rfl⟩))⟩

/-- Witness for C8: the demo panel saved into an empty `Config` and loaded into
a fresh panel, and the empty `Config` loaded into the demo panel. -/
theorem save_then_load_demo :
    mapRvizApi.Lawful ∧
    ((load mapRvizApi freshPanel (save mapRvizApi demoPanel (fun _ => none))).namespace_ =
        demoPanel.namespace_ ∧
      (load mapRvizApi freshPanel (save mapRvizApi demoPanel (fun _ => none))).planner_name_ =
        demoPanel.planner_name_ ∧
      (load mapRvizApi freshPanel
        (save mapRvizApi demoPanel (fun _ => none))).namespace_editor_ =
        demoPanel.namespace_ ∧
      (load mapRvizApi freshPanel
        (save mapRvizApi demoPanel (fun _ => none))).planner_name_editor_ =
        demoPanel.planner_name_) ∧
    mapRvizApi.mapGetString (fun _ => none) "namespace" = none ∧
    (load mapRvizApi demoPanel (fun _ => none)).namespace_editor_ =
      demoPanel.namespace_editor_ ∧
    mapRvizApi.mapGetString (fun _ => none) "planner_name" = none ∧
    (load mapRvizApi demoPanel (fun _ => none)).planner_name_editor_ =
      demoPanel.planner_name_editor_ :=
  ⟨mapRvizApi_lawful,
   (save_then_load_round_trip mapRvizApi mapRvizApi_lawful demoPanel freshPanel
      (fun _ => none)).1,
   rfl,
   (save_then_load_round_trip mapRvizApi mapRvizApi_lawful demoPanel demoPanel
      (fun _ => none)).2.1 rfl,
   rfl,
   (save_then_load_round_trip mapRvizApi mapRvizApi_lawful demoPanel demoPanel
      (fun _ => none)).2.2 rfl⟩

/-- Witness for C9: a pose update while "goal" is edited reaches the widget at
address 1 and not the one at address 0; with nothing edited the panel is left
as it is. -/
theorem marker_pose_demo :
    demoPanel.currently_editing_ ≠ "" ∧
    demoPanel.pose_widget_map_ demoPanel.currently_editing_ = some 1 ∧
    (updateInteractiveMarkerPose plainWidgetApi demoPanel (pointAt 1 2 3)).widgets 1 =
      plainWidgetApi.setPose (pointAt 1 2 3) (demoPanel.widgets 1) ∧
    (updateInteractiveMarkerPose plainWidgetApi demoPanel (pointAt 1 2 3)).widgets 0 =
      demoPanel.widgets 0 ∧
    freshPanel.currently_editing_ = "" ∧
    updateInteractiveMarkerPose plainWidgetApi freshPanel (pointAt 1 2 3) = freshPanel :=
  have hne : demoPanel.currently_editing_ ≠ "" := by decide
  have hfind : demoPanel.pose_widget_map_ demoPanel.currently_editing_ = some 1 := by decide
  have h := (marker_pose_reaches_only_edited_widget plainWidgetApi demoPanel
    (pointAt 1 2 3)).2.1 1 hne hfind
  ⟨hne, hfind, h.1, h.2 0 (by decide), rfl,
   (marker_pose_reaches_only_edited_widget plainWidgetApi freshPanel
     (pointAt 1 2 3)).1 (Or.inl rfl)⟩

end mav_planning_rviz
